/-
  Verification of the pattern-confidence scorer of retetare/viewchart.

  Shallow embedding of the scorer functions in src/server/lib/openai.ts,
  the wrapper in src/server/lib/chart-analyzer.ts and the learning update
  in src/server/storage.ts.  JavaScript numbers are modelled as rationals
  (ℚ); `Math.random()` draws are passed in as explicit parameters; the two
  in-memory `Map`s are modelled as association lists.
-/
import Mathlib

namespace ViewChart

/-! ## Data model (src/server/lib/openai.ts, lines 64-79)

`learnedPatterns : Map<string, {confidenceAdjustment, feedbackCount,
successCount, lastUpdated}>` and `tradingPairProfile : Map<string,
{patterns, volatility, lastSeenPrice, firstSeenDate, lastUpdated}>`.
Timestamps (`lastUpdated`, `firstSeenDate`) carry no information the
verified properties touch and are omitted. -/

structure LearnEntry where
  confidenceAdjustment : Int
  feedbackCount : Nat
  successCount : Nat
  deriving Repr, DecidableEq

abbrev LearnTable := List (String × LearnEntry)

structure PairProfile where
  patterns : List (String × Nat)
  volatility : ℚ
  lastSeenPrice : ℚ
  deriving Repr, DecidableEq

abbrev PairTable := List (String × PairProfile)

/-- The `Map.get` operation on the learning table. -/
def lookupEntry : LearnTable → String → Option LearnEntry
  | [], _ => none
  | (q, d) :: rest, p => if q = p then some d else lookupEntry rest p

/-- The `Map.set` operation on the learning table: replaces the entry if the key is
present, otherwise appends it. -/
def setEntry : LearnTable → String → LearnEntry → LearnTable
  | [], p, e => [(p, e)]
  | (q, d) :: rest, p, e =>
      if q = p then (q, e) :: rest else (q, d) :: setEntry rest p e

/-- The `Map.get` operation on the trading-pair profile table. -/
def lookupPair : PairTable → String → Option PairProfile
  | [], _ => none
  | (q, d) :: rest, s => if q = s then some d else lookupPair rest s

/-- The `Map.set` operation on the trading-pair profile table. -/
def setPair : PairTable → String → PairProfile → PairTable
  | [], s, pr => [(s, pr)]
  | (q, d) :: rest, s, pr =>
      if q = s then (q, pr) :: rest else (q, d) :: setPair rest s pr

/-- The read `pairData.patterns[pattern]` (plain-object field read, absent keys read
as `undefined`). -/
def lookupCount : List (String × Nat) → String → Option Nat
  | [], _ => none
  | (q, d) :: rest, p => if q = p then some d else lookupCount rest p

/-- The write `pairData.patterns[pattern] = v` on the plain object. -/
def setCount : List (String × Nat) → String → Nat → List (String × Nat)
  | [], p, v => [(p, v)]
  | (q, d) :: rest, p, v =>
      if q = p then (q, v) :: rest else (q, d) :: setCount rest p v

/-- JavaScript truthiness of an optional number: `undefined` and `0` are
falsy. -/
def truthyQ : Option ℚ → Bool
  | none => false
  | some x => x != 0

/-- The expression `x || 0` on an optional number. -/
def orZero (o : Option ℚ) : ℚ :=
  if truthyQ o then o.getD 0 else 0

/-! ## Feedback Integrator (`updateLearningModel`, openai.ts 394-425)

The source mutates `learnedPatterns` in place; the embedding threads the
table.  The entry is created with zeroed counters when absent, then
`feedbackCount += 1`; on correct feedback `successCount += 1` and
`confidenceAdjustment += 1`, else `confidenceAdjustment -= 1`; finally
`confidenceAdjustment = Math.max(-10, Math.min(10, ·))`. -/

def updateLearningModel (t : LearnTable) (pattern : String)
    (isCorrect : Bool) : LearnTable :=
  let d := (lookupEntry t pattern).getD
    { confidenceAdjustment := 0, feedbackCount := 0, successCount := 0 }
  let adj := d.confidenceAdjustment + (if isCorrect then 1 else -1)
  setEntry t pattern
    { confidenceAdjustment := max (-10) (min 10 adj)
      feedbackCount := d.feedbackCount + 1
      successCount := d.successCount + (if isCorrect then 1 else 0) }

/-- A sequence of feedback events applied from left to right. -/
def applyFeedback (t : LearnTable) : List (String × Bool) → LearnTable
  | [] => t
  | (p, b) :: rest => applyFeedback (updateLearningModel t p b) rest

/-- N consecutive feedback events for one pattern. -/
def repeatFeedback (t : LearnTable) (p : String) (b : Bool) : Nat → LearnTable
  | 0 => t
  | n + 1 => updateLearningModel (repeatFeedback t p b n) p b

/-! ### Basic lookup/set lemmas -/

theorem lookupEntry_setEntry_same (t : LearnTable) (p : String)
    (e : LearnEntry) : lookupEntry (setEntry t p e) p = some e := by
  induction t with
  | nil => simp [setEntry, lookupEntry]
  | cons hd tl ih =>
      obtain ⟨q, d⟩ := hd
      by_cases h : q = p
      · simp [setEntry, lookupEntry, h]
      · simp only [setEntry, if_neg h, lookupEntry, if_neg h]
        exact ih

theorem lookupEntry_setEntry_other (t : LearnTable) (p q : String)
    (e : LearnEntry) (h : q ≠ p) :
    lookupEntry (setEntry t p e) q = lookupEntry t q := by
  induction t with
  | nil => simp [setEntry, lookupEntry, if_neg (Ne.symm h)]
  | cons hd tl ih =>
      obtain ⟨r, d⟩ := hd
      by_cases hr : r = p
      · have hrq : r ≠ q := fun hc => h (hc ▸ hr)
        simp [setEntry, lookupEntry, hr, if_neg hrq, if_neg (Ne.symm h)]
      · by_cases hq : r = q
        · simp [setEntry, if_neg hr, lookupEntry, hq, if_neg h]
        · simp only [setEntry, if_neg hr, lookupEntry, if_neg hq]
          exact ih

theorem lookupEntry_update_same (t : LearnTable) (p : String) (b : Bool) :
    lookupEntry (updateLearningModel t p b) p =
      some { confidenceAdjustment :=
               max (-10) (min 10
                 (((lookupEntry t p).getD ⟨0, 0, 0⟩).confidenceAdjustment +
                   (if b then 1 else -1)))
             feedbackCount :=
               ((lookupEntry t p).getD ⟨0, 0, 0⟩).feedbackCount + 1
             successCount :=
               ((lookupEntry t p).getD ⟨0, 0, 0⟩).successCount +
                 (if b then 1 else 0) } := by
  simp [updateLearningModel, lookupEntry_setEntry_same]

theorem clamp_min_succ (n : Nat) :
    max (-10) (min 10 (min (n : Int) 10 + 1)) = min ((n + 1 : Nat) : Int) 10 := by
  push_cast
  omega

/-! ## Claim C1 -/

/-- C1: the function `updateLearningModel` creates the entry with zeroed counters if
absent, then increments `feedbackCount` by 1, increments `successCount` by 1
exactly when `isCorrect`, adds +1 (correct) / -1 (incorrect) to
`confidenceAdjustment` and clamps it to [-10, 10]; consequently, after N
consecutive correct-feedback calls from the empty table, `feedbackCount = N`,
`successCount = N` and `confidenceAdjustment = min N 10`. -/
theorem C1_updateLearningModel_effect :
    (∀ (t : LearnTable) (p : String) (b : Bool),
      lookupEntry (updateLearningModel t p b) p =
        some { confidenceAdjustment :=
                 max (-10) (min 10
                   (((lookupEntry t p).getD ⟨0, 0, 0⟩).confidenceAdjustment +
                     (if b then 1 else -1)))
               feedbackCount :=
                 ((lookupEntry t p).getD ⟨0, 0, 0⟩).feedbackCount + 1
               successCount :=
                 ((lookupEntry t p).getD ⟨0, 0, 0⟩).successCount +
                   (if b then 1 else 0) }) ∧
    (∀ (p : String) (N : Nat),
      lookupEntry (repeatFeedback [] p true N) p =
        if N = 0 then none
        else some { confidenceAdjustment := min (N : Int) 10
                    feedbackCount := N
                    successCount := N }) := by
  constructor
  · intro t p b
    exact lookupEntry_update_same t p b
  · intro p N
    induction N with
    | zero => simp [repeatFeedback, lookupEntry, List.find?]
    | succ n ih =>
        rw [repeatFeedback, lookupEntry_update_same, ih]
        have hd : ((if n = 0 then none else
            some (⟨min (n : Int) 10, n, n⟩ : LearnEntry)).getD ⟨0, 0, 0⟩) =
            (⟨min (n : Int) 10, n, n⟩ : LearnEntry) := by
          by_cases h : n = 0
          · subst h; decide
          · simp [h]
        rw [hd]
        simp [clamp_min_succ]

/-! ## Database variant of the learning update
(`DatabaseStorage.updatePatternLearning`, src/server/storage.ts 368-400).
The function reads the learning row for a pattern id (modelled as the
optional current row) and writes back the updated row. -/

def dbUpdatePatternLearning : Option LearnEntry → Bool → LearnEntry
  | some e, isCorrect =>
      { feedbackCount := e.feedbackCount + 1
        successCount :=
          if isCorrect then e.successCount + 1 else e.successCount
        confidenceAdjustment :=
          if isCorrect then min (e.confidenceAdjustment + 1) 10
          else max (e.confidenceAdjustment - 1) (-10) }
  | none, isCorrect =>
      { feedbackCount := 1
        successCount := if isCorrect then 1 else 0
        confidenceAdjustment := if isCorrect then 1 else -1 }

/-- The invariant `successCount ≤ feedbackCount` on a whole table. -/
def TableInv (t : LearnTable) : Prop :=
  ∀ p e, lookupEntry t p = some e → e.successCount ≤ e.feedbackCount

theorem tableInv_update (t : LearnTable) (q : String) (b : Bool)
    (h : TableInv t) : TableInv (updateLearningModel t q b) := by
  intro p e hp
  by_cases hpq : p = q
  · subst hpq
    rw [lookupEntry_update_same] at hp
    injection hp with hp'
    subst hp'
    cases hlk : lookupEntry t p with
    | none =>
        simp [hlk]
        cases b <;> simp
    | some d =>
        have hd := h p d hlk
        simp [hlk]
        cases b <;> simp <;> omega
  · rw [updateLearningModel] at hp
    rw [lookupEntry_setEntry_other _ _ _ _ hpq] at hp
    exact h p e hp

theorem tableInv_applyFeedback (t : LearnTable)
    (ops : List (String × Bool)) (h : TableInv t) :
    TableInv (applyFeedback t ops) := by
  induction ops generalizing t with
  | nil => exact h
  | cons op rest ih =>
      exact ih _ (tableInv_update t op.1 op.2 h)

theorem tableInv_nil : TableInv [] := by
  intro p e hp
  simp [lookupEntry] at hp

/-! ## Claim C5 -/

/-- C5: after any sequence of feedback operations starting from the
empty table, every entry of the learning table satisfies
`successCount ≤ feedbackCount`; the database variant of the update
(`DatabaseStorage.updatePatternLearning`) also preserves the invariant,
creating fresh rows with `successCount ≤ feedbackCount`. -/
theorem C5_successCount_le_feedbackCount :
    (∀ (ops : List (String × Bool)) (p : String) (e : LearnEntry),
      lookupEntry (applyFeedback [] ops) p = some e →
      e.successCount ≤ e.feedbackCount) ∧
    (∀ (o : Option LearnEntry) (b : Bool),
      (∀ e, o = some e → e.successCount ≤ e.feedbackCount) →
      (dbUpdatePatternLearning o b).successCount ≤
        (dbUpdatePatternLearning o b).feedbackCount) := by
  constructor
  · intro ops p e hp
    exact tableInv_applyFeedback [] ops tableInv_nil p e hp
  · intro o b h
    cases o with
    | none => cases b <;> simp [dbUpdatePatternLearning]
    | some e =>
        have he := h e rfl
        cases b <;> simp [dbUpdatePatternLearning] <;> omega

/-- Witness for C5 at the concrete operation sequence
`[("Doji Formation", true), ("Doji Formation", false)]`. -/
theorem C5_witness :
    ((⟨0, 2, 1⟩ : LearnEntry).successCount ≤
      (⟨0, 2, 1⟩ : LearnEntry).feedbackCount) ∧
    ((dbUpdatePatternLearning (some ⟨3, 4, 2⟩) true).successCount ≤
      (dbUpdatePatternLearning (some ⟨3, 4, 2⟩) true).feedbackCount) :=
  ⟨C5_successCount_le_feedbackCount.1
      [("Doji Formation", true), ("Doji Formation", false)]
      "Doji Formation" ⟨0, 2, 1⟩ (by decide),
   C5_successCount_le_feedbackCount.2 (some ⟨3, 4, 2⟩) true
      (fun e he => by injection he with he'; subst he'; decide)⟩

/-! ## Claim C8

The source of `updateLearningModel` (openai.ts 394-411) contains no
validation of the pattern name: an empty string is processed exactly like
any other key, so an entry for `""` is created. -/

/-- C8 counterexample: passing the empty pattern name to
`updateLearningModel` is not rejected: starting from the empty table it
creates an entry keyed by `""` and changes the table, contradicting the
claim that the table is left unchanged. -/
theorem C8_counterexample :
    lookupEntry (updateLearningModel [] "" true) "" =
      some ⟨1, 1, 1⟩ ∧ updateLearningModel [] "" true ≠ [] := by
  constructor
  · rfl
  · intro h
    simp [updateLearningModel, setEntry, lookupEntry] at h

/-- C8 amended: `updateLearningModel` performs no validation of the
pattern name: an empty pattern name is handled like any other key — the
entry keyed by the empty string is created with zeroed counters if absent
and then updated by the usual feedback rule, so the learning table does
change. -/
theorem C8_empty_name_creates_entry :
    ∀ (t : LearnTable) (b : Bool),
      lookupEntry (updateLearningModel t "" b) "" =
        some { confidenceAdjustment :=
                 max (-10) (min 10
                   (((lookupEntry t "").getD ⟨0, 0, 0⟩).confidenceAdjustment +
                     (if b then 1 else -1)))
               feedbackCount :=
                 ((lookupEntry t "").getD ⟨0, 0, 0⟩).feedbackCount + 1
               successCount :=
                 ((lookupEntry t "").getD ⟨0, 0, 0⟩).successCount +
                   (if b then 1 else 0) } :=
  fun t b => lookupEntry_update_same t "" b

/-! ## Historical analyses (`TAnalysisHistoryItem`, src/shared/schema.ts)

Only the fields the scorer reads are kept: `pattern` and `feedback`
(`boolean | null`, modelled as `Option Bool`). -/

structure HistItem where
  pattern : String
  feedback : Option Bool
  deriving Repr, DecidableEq

/-! ## Statistics Blender (`generatePatternStatistics`, openai.ts 279-321)

`Math.random()` draws for the baseline win rate and sample size are the
parameters `rW`, `rS` (each in [0,1) when produced by `Math.random`).
`Math.floor` is `⌊·⌋`, `Math.round` is Mathlib `round` (both are
`⌊x + 1/2⌋`, half toward +∞, as in JS), `Math.min`/`Math.max` are
`min`/`max`. -/

structure PatternStats where
  winRate : ℚ
  sampleSize : ℚ
  deriving Repr, DecidableEq

def generatePatternStatistics (lt : LearnTable) (pattern : String)
    (hist : List HistItem) (rW rS : ℚ) : PatternStats :=
  let winRate0 : ℚ := 65 + (⌊rW * 20⌋ : ℚ)
  let sampleSize0 : ℚ := 150 + (⌊rS * 350⌋ : ℚ)
  let p1 : ℚ × ℚ :=
    match lookupEntry lt pattern with
    | some d =>
        if 0 < d.feedbackCount then
          let learnedRate : ℚ :=
            (d.successCount : ℚ) / (d.feedbackCount : ℚ) * 100
          let blendFactor : ℚ := min ((d.feedbackCount : ℚ) / 10) (8 / 10)
          (((round (winRate0 * (1 - blendFactor) +
              learnedRate * blendFactor) : ℤ) : ℚ),
            sampleSize0 + (d.feedbackCount : ℚ))
        else (winRate0, sampleSize0)
    | none => (winRate0, sampleSize0)
  let patternHistory := hist.filter (fun item => item.pattern == pattern)
  if 0 < patternHistory.length then
    let correctPredictions :=
      (patternHistory.filter (fun item => item.feedback == some true)).length
    let historyRate : ℚ :=
      (correctPredictions : ℚ) / (patternHistory.length : ℚ) * 100
    let historyFactor : ℚ := min ((patternHistory.length : ℚ) / 20) (6 / 10)
    { winRate := ((round (p1.1 * (1 - historyFactor) +
        historyRate * historyFactor) : ℤ) : ℚ)
      sampleSize := p1.2 + (patternHistory.length : ℚ) }
  else { winRate := p1.1, sampleSize := p1.2 }

/-! ## Claim C3

The source never re-clamps `winRate` after blending, so a pattern whose
learning state carries a perfect success record pushes the blended win
rate above 90.  The state below is reachable: it is exactly the learning
table after ten correct feedback events for "Doji Formation". -/

/-- C3: counter-evidence. with the (reachable) learning state produced
by ten correct feedback events and baseline draws 0, the Statistics
Blender returns `winRate = 93`, outside the claimed range [50, 90]
(the code never re-clamps after blending). -/
theorem C3_winRate_can_exceed_90 :
    (generatePatternStatistics (repeatFeedback [] "Doji Formation" true 10)
        "Doji Formation" [] 0 0).winRate = 93 ∧
    ¬ (generatePatternStatistics (repeatFeedback [] "Doji Formation" true 10)
        "Doji Formation" [] 0 0).winRate ≤ 90 := by
  have ht : repeatFeedback [] "Doji Formation" true 10 =
      [("Doji Formation", ⟨10, 10, 10⟩)] := by decide
  rw [ht]
  norm_num [generatePatternStatistics, lookupEntry, round_eq, min_def]

/-! ## Claim C6 -/

/-- C6: when learning state exists with `feedbackCount > 0`, the win
rate is `round(winRate*(1-b1) + (successCount/feedbackCount*100)*b1)` with
`b1 = min(feedbackCount/10, 0.8)` and the sample size grows by
`feedbackCount`; when the history filtered to the pattern is non-empty the
win rate is blended again with factor `min(total/20, 0.6)` against
`correctCount/total*100` and the sample size grows by `total`. -/
theorem C6_statistics_blend (lt : LearnTable) (pattern : String)
    (hist : List HistItem) (rW rS : ℚ) (d : LearnEntry)
    (hd : lookupEntry lt pattern = some d) (hfc : 0 < d.feedbackCount)
    (hh : 0 < (hist.filter (fun item => item.pattern == pattern)).length) :
    generatePatternStatistics lt pattern hist rW rS =
      { winRate :=
          ((round
            (((round ((65 + (⌊rW * 20⌋ : ℚ)) *
                (1 - min ((d.feedbackCount : ℚ) / 10) (8 / 10)) +
                ((d.successCount : ℚ) / (d.feedbackCount : ℚ) * 100) *
                  min ((d.feedbackCount : ℚ) / 10) (8 / 10)) : ℤ) : ℚ) *
              (1 - min
                (((hist.filter (fun item => item.pattern == pattern)).length : ℚ)
                  / 20) (6 / 10)) +
              (((hist.filter (fun item => item.pattern == pattern)).filter
                  (fun item => item.feedback == some true)).length : ℚ) /
                ((hist.filter (fun item => item.pattern == pattern)).length : ℚ)
                * 100 *
                min (((hist.filter
                  (fun item => item.pattern == pattern)).length : ℚ) / 20)
                  (6 / 10)) : ℤ) : ℚ)
        sampleSize :=
          (150 + (⌊rS * 350⌋ : ℚ)) + (d.feedbackCount : ℚ) +
            ((hist.filter (fun item => item.pattern == pattern)).length : ℚ) } := by
  simp only [generatePatternStatistics, hd]
  rw [if_pos hfc, if_pos hh]

/-- Witness for C6 at a concrete learning entry and history. -/
theorem C6_witness :
    generatePatternStatistics [("Hammer Candlestick", ⟨3, 10, 5⟩)]
        "Hammer Candlestick" [⟨"Hammer Candlestick", some true⟩] 0 0 =
      { winRate := 55, sampleSize := 161 } ∧
    0 < (10 : Nat) := by
  constructor
  · have h := C6_statistics_blend [("Hammer Candlestick", ⟨3, 10, 5⟩)]
      "Hammer Candlestick" [⟨"Hammer Candlestick", some true⟩] 0 0
      ⟨3, 10, 5⟩ (by decide) (by decide) (by decide)
    rw [h]
    norm_num [round_eq, min_def, List.filter]
  · decide

/-! ## Pattern taxonomy (`MARKET_PATTERNS`, openai.ts 9-47) -/

def MARKET_PATTERNS : List (String × List String) :=
  [("continuation",
    ["Higher Highs & Higher Lows (Uptrend)",
     "Lower Highs & Lower Lows (Downtrend)",
     "Moving Average Alignment (Price above EMAs)",
     "Moving Average Alignment (Price below EMAs)",
     "Bollinger Band Squeeze"]),
   ("reversal",
    ["Break of Structure (Failed Higher Highs)",
     "Break of Structure (Failed Lower Lows)",
     "RSI Divergence",
     "MACD Divergence",
     "Exhaustion Move (Overextension beyond Bollinger Bands)"]),
   ("consolidation",
    ["Inside Bar Pattern",
     "Narrow Range Bars",
     "Ascending Triangle Formation",
     "Descending Triangle Formation",
     "Symmetrical Triangle Formation"]),
   ("breakout",
    ["Range Breakout (Above Resistance)",
     "Range Breakout (Below Support)",
     "Moving Average Crossover (Bullish)",
     "Moving Average Crossover (Bearish)",
     "Volume Spike Breakout"]),
   ("candlestick",
    ["Bullish Engulfing Pattern",
     "Bearish Engulfing Pattern",
     "Hammer Candlestick",
     "Inverted Hammer Candlestick",
     "Morning Star Pattern",
     "Evening Star Pattern",
     "Doji Formation"])]

/-- The list `Object.keys(MARKET_PATTERNS)` in declaration order. -/
def categoryNames : List String := MARKET_PATTERNS.map (·.1)

/-- The access `MARKET_PATTERNS[category]` (object field access). -/
def patternsOfCategory (c : String) : List String :=
  ((MARKET_PATTERNS.find? (fun e => e.1 == c)).map (·.2)).getD []

/-- The full 25-name taxonomy (all categories joined). -/
def ALL_PATTERNS : List String := (MARKET_PATTERNS.map (·.2)).flatten

/-! ## Pattern Selector (`enhancedPatternRecognition`, openai.ts 159-276)

The trading info produced by `extractTradingInfo` enters only through its
`pair` and `entry` fields.  The four `Math.random()` draws consumed by the
function are passed explicitly: category pick, weighted-selection draw,
base-confidence draw, and the coin flip used when no price comparison is
available. -/

structure TradingInfo where
  pair : String
  entry : Option ℚ
  deriving Repr, DecidableEq

structure RecogDraws where
  rCat : ℚ
  rSel : ℚ
  rConf : ℚ
  rDir : ℚ
  deriving Repr, DecidableEq

/-- The per-pattern weight (openai.ts 177-209): base 1, plus
`confidenceAdjustment` and success-rate scaling when learning state
exists, times pair affinity, times recent-history affinity. -/
def patternWeight (lt : LearnTable) (pt : PairTable) (info : TradingInfo)
    (hist : List HistItem) (pattern : String) : ℚ :=
  let w1 : ℚ :=
    match lookupEntry lt pattern with
    | some d =>
        let w : ℚ := 1 + (d.confidenceAdjustment : ℚ)
        if 0 < d.feedbackCount then
          w * (1 / 2 + (d.successCount : ℚ) / (d.feedbackCount : ℚ))
        else w
    | none => 1
  let w2 : ℚ :=
    match lookupPair pt info.pair with
    | some pd =>
        match lookupCount pd.patterns pattern with
        | some c => if c ≠ 0 then w1 * (1 + (c : ℚ) / 10) else w1
        | none => w1
    | none => w1
  let patternInHistory :=
    (hist.filter (fun item =>
      item.pattern == pattern && item.feedback == some true)).length
  w2 * (1 + (patternInHistory : ℚ) / 10)

/-- The total `patternWeights.reduce((sum, item) => sum + item.weight, 0)`
(openai.ts 212): the normalization divisor. -/
def totalWeight (lt : LearnTable) (pt : PairTable) (info : TradingInfo)
    (hist : List HistItem) (patterns : List String) : ℚ :=
  (patterns.map (fun p => patternWeight lt pt info hist p)).sum

/-- The cumulative-weight selection loop (openai.ts 219-229). -/
def selectLoop (r : ℚ) : List (String × ℚ) → ℚ → Option String
  | [], _ => none
  | (p, w) :: rest, acc =>
      if r ≤ acc + w then some p else selectLoop r rest (acc + w)

/-- Normalize the weights and draw; `patterns[0]` when the loop never
fires (openai.ts 211-229). -/
def selectPatternFromList (lt : LearnTable) (pt : PairTable)
    (info : TradingInfo) (hist : List HistItem) (patterns : List String)
    (r : ℚ) : String :=
  let tw := totalWeight lt pt info hist patterns
  let normalized := patterns.map
    (fun p => (p, patternWeight lt pt info hist p / tw))
  (selectLoop r normalized 0).getD (patterns.headD "")

structure RecogResult where
  pattern : String
  prediction : String
  confidence : ℚ
  deriving Repr, DecidableEq

def enhancedPatternRecognition (lt : LearnTable) (pt : PairTable)
    (info : TradingInfo) (hist : List HistItem) (dr : RecogDraws) :
    RecogResult :=
  let patterns := patternsOfCategory
    (categoryNames.getD (⌊dr.rCat * (categoryNames.length : ℚ)⌋).toNat "")
  let selPattern := selectPatternFromList lt pt info hist patterns dr.rSel
  let conf0 : ℚ := 60 + (⌊dr.rConf * 30⌋ : ℚ)
  let pc : String × ℚ :=
    match lookupPair pt info.pair with
    | some pd =>
        let pc0 : String × ℚ :=
          if pd.lastSeenPrice != 0 && truthyQ info.entry then
            let e := info.entry.getD 0
            ((if pd.lastSeenPrice < e then "bullish" else "bearish"),
              conf0 + min (|e / pd.lastSeenPrice - 1| * 100) 10)
          else
            ((if 1 / 2 < dr.rDir then "bullish" else "bearish"), conf0)
        (pc0.1, pc0.2 - min (pd.volatility * 10) 15)
    | none => ((if 1 / 2 < dr.rDir then "bullish" else "bearish"), conf0)
  let conf1 : ℚ :=
    match lookupEntry lt selPattern with
    | some d =>
        let c := pc.2 + (d.confidenceAdjustment : ℚ)
        if 0 < d.feedbackCount then
          c + ((d.successCount : ℚ) / (d.feedbackCount : ℚ) - 1 / 2) * 20
        else c
    | none => pc.2
  { pattern := selPattern, prediction := pc.1
    confidence := max 50 (min 95 conf1) }

/-! ### Selection lemmas -/

theorem selectLoop_mem (r : ℚ) :
    ∀ (l : List (String × ℚ)) (acc : ℚ) (p : String),
      selectLoop r l acc = some p → p ∈ l.map Prod.fst := by
  intro l
  induction l with
  | nil => intro acc p h; simp [selectLoop] at h
  | cons hd tl ih =>
      intro acc p h
      obtain ⟨q, w⟩ := hd
      rw [selectLoop] at h
      by_cases hc : r ≤ acc + w
      · rw [if_pos hc] at h
        injection h with h'
        subst h'
        simp
      · rw [if_neg hc] at h
        simp only [List.map_cons, List.mem_cons]
        exact Or.inr (ih _ _ h)

theorem selectPatternFromList_mem (lt : LearnTable) (pt : PairTable)
    (info : TradingInfo) (hist : List HistItem) (patterns : List String)
    (r : ℚ) (hne : patterns ≠ []) :
    selectPatternFromList lt pt info hist patterns r ∈ patterns := by
  simp only [selectPatternFromList]
  cases hs : selectLoop r (patterns.map fun p =>
      (p, patternWeight lt pt info hist p /
        totalWeight lt pt info hist patterns)) 0 with
  | none =>
      simp only [Option.getD_none]
      cases patterns with
      | nil => exact absurd rfl hne
      | cons a l => simp [List.headD]
  | some p =>
      simp only [Option.getD_some]
      have hm := selectLoop_mem r _ 0 p hs
      rw [List.map_map] at hm
      simpa using hm

theorem patternsOfCategory_subset (c : String) (p : String)
    (hp : p ∈ patternsOfCategory c) : p ∈ ALL_PATTERNS := by
  rw [patternsOfCategory] at hp
  cases hf : MARKET_PATTERNS.find? (fun e => e.1 == c) with
  | none => rw [hf] at hp; simp at hp
  | some ce =>
      rw [hf] at hp
      simp at hp
      have hmem := List.mem_of_find?_eq_some hf
      rw [ALL_PATTERNS, List.mem_flatten]
      exact ⟨ce.2, List.mem_map_of_mem _ hmem, hp⟩

theorem selectedPatterns_ne_nil (r : ℚ) (h0 : 0 ≤ r) (h1 : r < 1) :
    patternsOfCategory
      (categoryNames.getD (⌊r * (categoryNames.length : ℚ)⌋).toNat "") ≠
      [] := by
  have hl : ((categoryNames.length : Nat) : ℚ) = 5 := by
    norm_num [categoryNames, MARKET_PATTERNS]
  rw [hl]
  have hf0 : 0 ≤ ⌊r * 5⌋ := Int.floor_nonneg.mpr (by positivity)
  have hf5 : ⌊r * 5⌋ < 5 := Int.floor_lt.mpr (by push_cast; linarith)
  have hd : (⌊r * 5⌋).toNat = 0 ∨ (⌊r * 5⌋).toNat = 1 ∨
      (⌊r * 5⌋).toNat = 2 ∨ (⌊r * 5⌋).toNat = 3 ∨
      (⌊r * 5⌋).toNat = 4 := by omega
  rcases hd with h | h | h | h | h <;> rw [h] <;> decide

/-! ## Claim C2 -/

/-- C2: for every learning/profile state, trading info, history and
random draws (the category draw being a `Math.random()` value in [0,1)),
the Pattern Selector returns a pattern from the fixed 25-name taxonomy
and a confidence inside [50, 95]. -/
theorem C2_taxonomy_and_confidence (lt : LearnTable) (pt : PairTable)
    (info : TradingInfo) (hist : List HistItem) (dr : RecogDraws)
    (h0 : 0 ≤ dr.rCat) (h1 : dr.rCat < 1) :
    (enhancedPatternRecognition lt pt info hist dr).pattern ∈ ALL_PATTERNS ∧
    50 ≤ (enhancedPatternRecognition lt pt info hist dr).confidence ∧
    (enhancedPatternRecognition lt pt info hist dr).confidence ≤ 95 := by
  have hpat : (enhancedPatternRecognition lt pt info hist dr).pattern =
      selectPatternFromList lt pt info hist
        (patternsOfCategory
          (categoryNames.getD
            (⌊dr.rCat * (categoryNames.length : ℚ)⌋).toNat "")) dr.rSel := rfl
  have hconf : ∃ c, (enhancedPatternRecognition lt pt info hist dr).confidence
      = max 50 (min 95 c) := ⟨_, rfl⟩
  obtain ⟨c, hc⟩ := hconf
  refine ⟨?_, ?_, ?_⟩
  · rw [hpat]
    exact patternsOfCategory_subset _ _
      (selectPatternFromList_mem _ _ _ _ _ _
        (selectedPatterns_ne_nil dr.rCat h0 h1))
  · rw [hc]
    exact le_max_left _ _
  · rw [hc]
    exact max_le (by norm_num) (min_le_left _ _)

/-- Witness for C2 at zero draws and empty state. -/
theorem C2_witness :
    (enhancedPatternRecognition [] [] ⟨"BTC/USD", none⟩ []
      ⟨0, 0, 0, 0⟩).pattern ∈ ALL_PATTERNS ∧
    50 ≤ (enhancedPatternRecognition [] [] ⟨"BTC/USD", none⟩ []
      ⟨0, 0, 0, 0⟩).confidence ∧
    (enhancedPatternRecognition [] [] ⟨"BTC/USD", none⟩ []
      ⟨0, 0, 0, 0⟩).confidence ≤ 95 :=
  C2_taxonomy_and_confidence [] [] ⟨"BTC/USD", none⟩ [] ⟨0, 0, 0, 0⟩
    (le_refl 0) zero_lt_one

/-! ## Claim C9

Every division in the Statistics Blender, Feedback Integrator and Profile
Updater sits under an explicit guard (`feedbackCount > 0`,
`patternHistory.length > 0`, truthiness of `entry` and `lastSeenPrice`),
and the Pattern Selector guards `successCount / feedbackCount` and
`entry / lastSeenPrice` the same way.  But the selector's weight
normalization (openai.ts 212-216) divides every weight by the raw weight
total with no guard, and that total reaches zero on reachable state:
after nine incorrect feedback events for one pattern its weight is
`(1 - 9) * (0.5 + 0) = -4`, cancelling the four sibling weights of 1. -/

/-- C9: evaluating the selector's normalization divisor at the
learning state produced by nine incorrect feedback events for
"Higher Highs & Higher Lows (Uptrend)" (category "continuation", empty
pair table and history): the weight total is 0, so the unguarded
`item.weight / totalWeight` normalization divides by zero. -/
theorem C9_totalWeight_zero :
    totalWeight
      (repeatFeedback [] "Higher Highs & Higher Lows (Uptrend)" false 9)
      [] ⟨"BTC/USD", none⟩ [] (patternsOfCategory "continuation") = 0 := by
  have ht : repeatFeedback [] "Higher Highs & Higher Lows (Uptrend)" false 9 =
      [("Higher Highs & Higher Lows (Uptrend)", ⟨-9, 9, 0⟩)] := by decide
  rw [ht]
  simp +decide [totalWeight, patternWeight, patternsOfCategory,
    MARKET_PATTERNS, lookupEntry, lookupPair, List.find?, List.filter]
  norm_num

/-! ## Trading-Pair Profile Updater (openai.ts 468-492)

Step 6 of `analyzeChartImage`: create the profile when the pair is new
(`volatility` seeded 0.02, `lastSeenPrice = entry || 0`, `patterns = {}`);
otherwise smooth the volatility (only when both the new entry price and
the stored `lastSeenPrice` are truthy), update `lastSeenPrice`
(`entry || previous`) and bump the pattern's occurrence count. -/

def updatePairProfile (pt : PairTable) (pair : String) (entry : Option ℚ)
    (pattern : String) : PairTable :=
  match lookupPair pt pair with
  | none =>
      setPair pt pair
        { patterns := [], volatility := 1 / 50, lastSeenPrice := orZero entry }
  | some pd =>
      let vol :=
        if truthyQ entry && (pd.lastSeenPrice != 0) then
          pd.volatility * (7 / 10) +
            |entry.getD 0 / pd.lastSeenPrice - 1| * (3 / 10)
        else pd.volatility
      let lsp := if truthyQ entry then entry.getD 0 else pd.lastSeenPrice
      let cnt := (lookupCount pd.patterns pattern).getD 0 + 1
      setPair pt pair
        { patterns := setCount pd.patterns pattern cnt
          volatility := vol, lastSeenPrice := lsp }

/-! ## Claim C4

In the source the pattern-occurrence bump sits in the `else` branch only:
a freshly created profile gets `patterns = {}`, not a count of 1.  The
first call therefore leaves the pattern count at 0 and the second call
sets it to 1, not 2. -/

/-- C4 counterexample: the first call creates the profile with an
empty `patterns` object: the count of "Bollinger Band Squeeze" is absent
(0), not 1 as claimed. -/
theorem C4_counterexample :
    lookupPair (updatePairProfile [] "BTC/USD" (some 61000)
        "Bollinger Band Squeeze") "BTC/USD" =
      some { patterns := [], volatility := 1 / 50, lastSeenPrice := 61000 } ∧
    lookupCount
      (((lookupPair (updatePairProfile [] "BTC/USD" (some 61000)
          "Bollinger Band Squeeze") "BTC/USD").getD
        ⟨[], 0, 0⟩).patterns) "Bollinger Band Squeeze" ≠ some 1 := by
  constructor
  · norm_num [updatePairProfile, lookupPair, setPair, orZero, truthyQ]
  · norm_num [updatePairProfile, lookupPair, setPair, orZero, truthyQ,
      lookupCount]
    exact fun hc => Option.noConfusion hc

/-- C4 amended: the first call creates the profile with
`lastSeenPrice = 61000`, `volatility = 0.02` and an *empty* pattern map;
the second call with price 62200 sets
`volatility = 0.02*0.7 + (62200/61000 - 1)*0.3 = 607/30500 ≈ 0.0199` and
the pattern's occurrence count to 1. -/
theorem C4_profile_two_calls :
    lookupPair (updatePairProfile [] "BTC/USD" (some 61000)
        "Bollinger Band Squeeze") "BTC/USD" =
      some { patterns := [], volatility := 1 / 50, lastSeenPrice := 61000 } ∧
    lookupPair (updatePairProfile
        (updatePairProfile [] "BTC/USD" (some 61000) "Bollinger Band Squeeze")
        "BTC/USD" (some 62200) "Bollinger Band Squeeze") "BTC/USD" =
      some { patterns := [("Bollinger Band Squeeze", 1)]
             volatility := 607 / 30500, lastSeenPrice := 62200 } := by
  constructor
  · norm_num [updatePairProfile, lookupPair, setPair, orZero, truthyQ]
  · norm_num [updatePairProfile, lookupPair, setPair, orZero, truthyQ,
      lookupCount, setCount, abs_of_pos]

/-! ## Top-level wrapper (`analyzeChart`, src/server/lib/chart-analyzer.ts)

The wrapper's inputs are modelled as: whether `OPENAI_API_KEY` is set,
the outcome of `analyzeChartWithOpenAI` (`Except` models throw), and the
inputs the simulated path consumes.  The simulated analyzer
`analyzeChartImage` (openai.ts 431-509) is the composition of the
selector, the statistics blender and the profile updater; its template
explanation text is passed through as a string. -/

structure Analysis where
  pattern : String
  prediction : String
  confidence : ℚ
  winRate : ℚ
  sampleSize : ℚ
  explanation : String
  deriving Repr, DecidableEq

/-- The test `String(prediction).toLowerCase().includes("bull")`
(chart-analyzer.ts 40-41). -/
def includesBull (s : String) : Bool :=
  (s.toLower.splitOn "bull").length > 1

/-- The normalization block of `analyzeChart` (chart-analyzer.ts 38-51):
force the prediction into {bullish, bearish}, round and clamp confidence
to [1,100], winRate to [50,90] and sampleSize to [50,500]. -/
def normalizeAnalysis (a : Analysis) : Analysis :=
  let pred :=
    if a.prediction == "bullish" || a.prediction == "bearish" then
      a.prediction
    else if includesBull a.prediction then "bullish" else "bearish"
  { a with
    prediction := pred
    confidence := ((min 100 (max 1 (round a.confidence)) : ℤ) : ℚ)
    winRate := ((min 90 (max 50 (round a.winRate)) : ℤ) : ℚ)
    sampleSize := ((min 500 (max 50 (round a.sampleSize)) : ℤ) : ℚ) }

/-- The simulated analyzer `analyzeChartImage` (openai.ts 431-509):
pattern selection, statistics and the profile update composed.  Returns
the analysis together with the updated pair table. -/
def analyzeChartImage (lt : LearnTable) (pt : PairTable)
    (info : TradingInfo) (hist : List HistItem) (dr : RecogDraws)
    (rW rS : ℚ) (expl : String) : Analysis × PairTable :=
  let r := enhancedPatternRecognition lt pt info hist dr
  let s := generatePatternStatistics lt r.pattern hist rW rS
  let ptNew := updatePairProfile pt info.pair info.entry r.pattern
  ({ pattern := r.pattern, prediction := r.prediction
     confidence := r.confidence, winRate := s.winRate
     sampleSize := s.sampleSize, explanation := expl }, ptNew)

/-- The wrapper `analyzeChart` (chart-analyzer.ts 10-68): with an API key, try the
OpenAI path and fall back to the simulated analyzer when it throws;
without a key, use the simulated analyzer; normalize either result. -/
def analyzeChart (hasApiKey : Bool) (openaiResult : Except String Analysis)
    (lt : LearnTable) (pt : PairTable) (info : TradingInfo)
    (hist : List HistItem) (dr : RecogDraws) (rW rS : ℚ) (expl : String) :
    Except String Analysis :=
  if hasApiKey then
    match openaiResult with
    | Except.ok a => Except.ok (normalizeAnalysis a)
    | Except.error _ =>
        Except.ok (normalizeAnalysis
          (analyzeChartImage lt pt info hist dr rW rS expl).1)
  else
    Except.ok (normalizeAnalysis
      (analyzeChartImage lt pt info hist dr rW rS expl).1)

/-! ## Claim C7 -/

/-- C7: whenever the external vision-model call throws (any error
message), `analyzeChart` still succeeds and returns the (normalized)
result of the local simulated analyzer `analyzeChartImage`: an
external-model failure is never surfaced as a hard failure. -/
theorem C7_fallback_on_model_failure :
    ∀ (e : String) (lt : LearnTable) (pt : PairTable) (info : TradingInfo)
      (hist : List HistItem) (dr : RecogDraws) (rW rS : ℚ) (expl : String),
      analyzeChart true (Except.error e) lt pt info hist dr rW rS expl =
        Except.ok (normalizeAnalysis
          (analyzeChartImage lt pt info hist dr rW rS expl).1) :=
  fun _ _ _ _ _ _ _ _ _ => rfl

/-! ## Claim C10 -/

/-- C10: every analysis the wrapper returns — on the OpenAI path or
the simulated path — has integer confidence in [1,100], integer winRate
in [50,90] and integer sampleSize in [50,500]: the wrapper rounds and
clamps all three before returning. -/
theorem C10_output_ranges (hasApiKey : Bool)
    (openaiResult : Except String Analysis) (lt : LearnTable)
    (pt : PairTable) (info : TradingInfo) (hist : List HistItem)
    (dr : RecogDraws) (rW rS : ℚ) (expl : String) (a : Analysis)
    (h : analyzeChart hasApiKey openaiResult lt pt info hist dr rW rS expl =
      Except.ok a) :
    (∃ n : ℤ, a.confidence = (n : ℚ) ∧ 1 ≤ n ∧ n ≤ 100) ∧
    (∃ n : ℤ, a.winRate = (n : ℚ) ∧ 50 ≤ n ∧ n ≤ 90) ∧
    (∃ n : ℤ, a.sampleSize = (n : ℚ) ∧ 50 ≤ n ∧ n ≤ 500) := by
  have hb : ∃ b, a = normalizeAnalysis b := by
    cases hasApiKey with
    | false =>
        simp only [analyzeChart, Bool.false_eq_true, if_false] at h
        exact ⟨_, (Except.ok.injEq _ _ ▸ h).symm⟩
    | true =>
        cases openaiResult with
        | ok b =>
            simp only [analyzeChart, if_true] at h
            exact ⟨b, (Except.ok.injEq _ _ ▸ h).symm⟩
        | error e =>
            simp only [analyzeChart, if_true] at h
            exact ⟨_, (Except.ok.injEq _ _ ▸ h).symm⟩
  obtain ⟨b, rfl⟩ := hb
  refine ⟨⟨min 100 (max 1 (round b.confidence)), rfl, by omega, by omega⟩,
    ⟨min 90 (max 50 (round b.winRate)), rfl, by omega, by omega⟩,
    ⟨min 500 (max 50 (round b.sampleSize)), rfl, by omega, by omega⟩⟩

/-- Witness for C10 on the no-API-key path with zero draws. -/
theorem C10_witness :
    (∃ n : ℤ, (normalizeAnalysis (analyzeChartImage [] [] ⟨"BTC/USD", none⟩
      [] ⟨0, 0, 0, 0⟩ 0 0 "t").1).confidence = (n : ℚ) ∧ 1 ≤ n ∧ n ≤ 100) ∧
    (∃ n : ℤ, (normalizeAnalysis (analyzeChartImage [] [] ⟨"BTC/USD", none⟩
      [] ⟨0, 0, 0, 0⟩ 0 0 "t").1).winRate = (n : ℚ) ∧ 50 ≤ n ∧ n ≤ 90) ∧
    (∃ n : ℤ, (normalizeAnalysis (analyzeChartImage [] [] ⟨"BTC/USD", none⟩
      [] ⟨0, 0, 0, 0⟩ 0 0 "t").1).sampleSize = (n : ℚ) ∧ 50 ≤ n ∧ n ≤ 500) :=
  C10_output_ranges false (Except.error "boom") [] [] ⟨"BTC/USD", none⟩ []
    ⟨0, 0, 0, 0⟩ 0 0 "t"
    (normalizeAnalysis (analyzeChartImage [] [] ⟨"BTC/USD", none⟩ []
      ⟨0, 0, 0, 0⟩ 0 0 "t").1) rfl
